import Mathlib

/-!
Shallow embedding of src/core/finder/finder.py.

The finder module coordinates template matching, polling waits and highlight
rendering.  Its collaborators (match template, image find, image vanish, text
search, process-wide settings, command-line flags) live outside src/, so they
are modelled abstractly as fields of an environment record `Env`; every theorem
quantifies over all environments.  The finder operations themselves are
translated line by line from finder.py.
-/

namespace Finder

/-- Modelled from the spec: core/finder/pattern.py is not under src/.  A
Pattern is an immutable value object holding an image reference (filename)
and a size (width, height).  Only the accessors used by finder.py appear. -/
structure Pattern where
  filename : String
  width : Int
  height : Int
deriving DecidableEq

/-- Accessor used by the error messages of finder.py. -/
def Pattern.get_filename (p : Pattern) : String := p.filename

/-- Accessor used by the highlight branch of finder.py. -/
def Pattern.get_size (p : Pattern) : Int × Int := (p.width, p.height)

/-- A 2D point where a match was found (core/helpers/location.py). -/
structure Location where
  x : Int
  y : Int
deriving DecidableEq

/-- An axis-aligned box restricting the search area (core/helpers/rectangle.py). -/
structure Rectangle where
  x : Int
  y : Int
  width : Int
  height : Int
deriving DecidableEq

/-- A well-formed rectangle has non-negative dimensions. -/
def Rectangle.wellFormed (r : Rectangle) : Prop := 0 ≤ r.width ∧ 0 ≤ r.height

/-- Modelled from the spec: core/enums.py is not under src/.  The match mode
passed by finder.py to the template matcher. -/
inductive MatchTemplateType where
  | SINGLE
  | MULTIPLE
deriving DecidableEq

/-- Errors raised by finder.py: FindError for a failed lookup, ValueError for
an unsupported target type, TypeError for iterating a missing argument. -/
inductive Err where
  | findError (msg : String)
  | valueError (msg : String)
  | typeError (msg : String)
deriving DecidableEq

/-- The dynamically typed target `ps: Pattern or str`: a Pattern, a string, or
any other value (modelled by a single unsupported variant, since finder.py
never inspects such a value beyond its type). -/
inductive PS where
  | pattern (p : Pattern)
  | text (s : String)
  | other
deriving DecidableEq

/-- Modelled from the spec: core/settings.py is not under src/.  The
process-wide configuration read by finder.py when an argument is omitted. -/
structure Settings where
  auto_wait_timeout : Rat
  highlight_color : String
  highlight_duration : Rat
deriving DecidableEq

/-- The abstract environment: process-wide settings, the command-line
highlight flag, and the external search collaborators of finder.py.
match_template performs a one-shot search; image_find polls until a match
appears or the timeout elapses, returning the found locations or nothing;
image_vanish polls until the pattern is gone, returning a success token or
nothing; text_search locates on-screen text with an optional wait flag. -/
structure Env where
  settings : Settings
  args_highlight : Bool
  match_template : Pattern → Option Rectangle → MatchTemplateType → List Location
  image_find : Pattern → Rat → Option Rectangle → Option (List Location)
  image_vanish : Pattern → Rat → Option Rectangle → Option Unit
  text_search : String → Bool → Option Rectangle → Option Location

/-- One rectangle drawn by the highlighter (core/highlight). -/
structure HighlightRectangle where
  x : Int
  y : Int
  width : Int
  height : Int
  color : String
deriving DecidableEq

/-- The observable effect of a highlight call: the rectangles drawn, whether a
region label was drawn, the render and sleep durations, and the color used. -/
structure HighlightEffect where
  rects : List HighlightRectangle
  regionLabel : Bool
  renderSeconds : Rat
  sleepSeconds : Rat
  usedColor : String
deriving DecidableEq

/-- Lift a predicate over the content of an optional value; an omitted value
satisfies it vacuously. -/
def optionAll {α : Type} (P : α → Prop) : Option α → Prop
  | some a => P a
  | none => True

/-- finder.py highlight: defaults color and seconds from Settings, draws a
rectangle (plus a label) for the region when given, draws one rectangle per
location sized to the pattern when a pattern is given, then renders and
sleeps.  Iterating the location argument when it is missing while a pattern
is given is the one way the Python body can fail (a TypeError). -/
def highlight (env : Env) (region : Option Rectangle) (seconds : Option Rat)
    (color : Option String) (pattern : Option Pattern)
    (location : Option (List Location)) : Except Err HighlightEffect :=
  let color := color.getD env.settings.highlight_color
  let seconds := seconds.getD env.settings.highlight_duration
  let regionRects : List HighlightRectangle :=
    match region with
    | some r => [⟨r.x, r.y, r.width, r.height, color⟩]
    | none => []
  match pattern with
  | some p =>
      match location with
      | none => Except.error (Err.typeError "NoneType object is not iterable")
      | some locs =>
          let patRects := locs.map fun loc =>
            (⟨loc.x, loc.y, p.get_size.1, p.get_size.2, color⟩ : HighlightRectangle)
          Except.ok ⟨regionRects ++ patRects, region.isSome, seconds, seconds, color⟩
  | none => Except.ok ⟨regionRects, region.isSome, seconds, seconds, color⟩

/-- finder.py find: on a Pattern, one SINGLE template match; a non-empty
result yields its first element (after an optional highlight), an empty
result raises FindError naming the pattern.  Any non-Pattern target falls
through the isinstance check to the unimplemented OCR branch and returns
None. -/
def find (env : Env) (ps : PS) (region : Option Rectangle) :
    Except Err (Option Location) :=
  match ps with
  | PS.pattern p =>
      match env.match_template p region MatchTemplateType.SINGLE with
      | [] => Except.error (Err.findError ("Unable to find image " ++ p.get_filename))
      | l :: ls =>
          if env.args_highlight then
            match highlight env region none none (some p) (some (l :: ls)) with
            | Except.ok _ => Except.ok (some l)
            | Except.error e => Except.error e
          else
            Except.ok (some l)
  | _ => Except.ok none

/-- finder.py find_all: a MULTIPLE template match; a non-empty result is
returned whole (after an optional highlight), an empty result raises
FindError naming the pattern. -/
def find_all (env : Env) (pattern : Pattern) (region : Option Rectangle) :
    Except Err (List Location) :=
  match env.match_template pattern region MatchTemplateType.MULTIPLE with
  | [] => Except.error (Err.findError ("Unable to find image " ++ pattern.get_filename))
  | l :: ls =>
      if env.args_highlight then
        match highlight env region none none (some pattern) (some (l :: ls)) with
        | Except.ok _ => Except.ok (l :: ls)
        | Except.error e => Except.error e
      else
        Except.ok (l :: ls)

/-- finder.py verify: on a Pattern, default the timeout from Settings and
delegate to the blocking image_find; success returns true (after an optional
highlight), failure raises FindError naming the pattern.  On a string,
delegate to the text search in wait mode; failure raises FindError naming the
text.  Any other target raises ValueError. -/
def verify (env : Env) (ps : PS) (timeout : Option Rat)
    (region : Option Rectangle) : Except Err Bool :=
  match ps with
  | PS.pattern p =>
      let t := timeout.getD env.settings.auto_wait_timeout
      match env.image_find p t region with
      | some locs =>
          if env.args_highlight then
            match highlight env region none none (some p) (some locs) with
            | Except.ok _ => Except.ok true
            | Except.error e => Except.error e
          else
            Except.ok true
      | none => Except.error (Err.findError ("Unable to find image " ++ p.get_filename))
  | PS.text s =>
      match env.text_search s true region with
      | some _ => Except.ok true
      | none => Except.error (Err.findError ("Unable to find text " ++ s))
  | PS.other => Except.error (Err.valueError "Invalid input")

/-- finder.py exists (named exists_ because exists is a Lean keyword):
default the timeout from Settings, call verify, convert a FindError to false,
a normal return to true, and let every other error propagate. -/
def exists_ (env : Env) (ps : PS) (timeout : Option Rat)
    (region : Option Rectangle) : Except Err Bool :=
  let t := timeout.getD env.settings.auto_wait_timeout
  match verify env ps (some t) region with
  | Except.ok _ => Except.ok true
  | Except.error (Err.findError _) => Except.ok false
  | Except.error e => Except.error e

/-- finder.py wait_vanish: default the timeout from Settings and delegate to
the blocking image_vanish; a success token returns true, nothing raises
FindError naming the pattern. -/
def wait_vanish (env : Env) (pattern : Pattern) (timeout : Option Rat)
    (region : Option Rectangle) : Except Err Bool :=
  let t := timeout.getD env.settings.auto_wait_timeout
  match env.image_vanish pattern t region with
  | some _ => Except.ok true
  | none => Except.error (Err.findError (pattern.get_filename ++ " did not vanish"))

/-- Concrete settings used by witnesses. -/
def settings0 : Settings := ⟨3, "red", 2⟩

/-- A concrete pattern used by witnesses. -/
def pat0 : Pattern := ⟨"button.png", 40, 20⟩

/-- A concrete location used by witnesses. -/
def loc0 : Location := ⟨100, 100⟩

/-- A concrete region used by witnesses. -/
def rect0 : Rectangle := ⟨0, 0, 800, 600⟩

/-- An environment whose searches never find anything. -/
def envEmpty : Env :=
  { settings := settings0
    args_highlight := false
    match_template := fun _ _ _ => []
    image_find := fun _ _ _ => none
    image_vanish := fun _ _ _ => none
    text_search := fun _ _ _ => none }

/-- An environment whose searches always find loc0. -/
def envHit : Env :=
  { settings := settings0
    args_highlight := false
    match_template := fun _ _ _ => [loc0]
    image_find := fun _ _ _ => some [loc0]
    image_vanish := fun _ _ _ => some ()
    text_search := fun _ _ _ => some loc0 }

theorem highlight_some_isOk (env : Env) (region : Option Rectangle)
    (s : Option Rat) (c : Option String) (pat : Option Pattern)
    (locs : List Location) :
    ∃ eff, highlight env region s c pat (some locs) = Except.ok eff := by
  cases pat <;> exact ⟨_, rfl⟩

theorem highlight_none_pattern_isOk (env : Env) (region : Option Rectangle)
    (s : Option Rat) (c : Option String) (location : Option (List Location)) :
    ∃ eff, highlight env region s c none location = Except.ok eff :=
  ⟨_, rfl⟩

theorem find_ok_of_single (env : Env) (p : Pattern) (r : Option Rectangle)
    (l : Location) (ls : List Location)
    (h : env.match_template p r MatchTemplateType.SINGLE = l :: ls) :
    find env (PS.pattern p) r = Except.ok (some l) := by
  obtain ⟨eff, heff⟩ := highlight_some_isOk env r none none (some p) (l :: ls)
  by_cases hb : env.args_highlight <;> simp [find, h, hb, heff]

theorem find_all_ok_inv (env : Env) (p : Pattern) (r : Option Rectangle)
    (locs : List Location) (h : find_all env p r = Except.ok locs) :
    env.match_template p r MatchTemplateType.MULTIPLE = locs := by
  rcases hmt : env.match_template p r MatchTemplateType.MULTIPLE with _ | ⟨x, xs⟩
  · simp [find_all, hmt] at h
  · obtain ⟨eff, heff⟩ := highlight_some_isOk env r none none (some p) (x :: xs)
    by_cases hb : env.args_highlight <;>
      simp_all [find_all, hmt, hb, heff]

theorem verify_default_timeout (env : Env) (ps : PS) (r : Option Rectangle)
    (t : Option Rat) :
    verify env ps (some (t.getD env.settings.auto_wait_timeout)) r =
      verify env ps t r := by
  cases ps <;> cases t <;> rfl

/-- Claim C1: for every Pattern whose template match yields zero locations,
find raises FindError and find_all raises FindError, and in both cases the
error message contains the pattern filename. -/
theorem find_and_find_all_raise_on_zero_matches (env : Env) (p : Pattern)
    (r : Option Rectangle)
    (h1 : env.match_template p r MatchTemplateType.SINGLE = [])
    (h2 : env.match_template p r MatchTemplateType.MULTIPLE = []) :
    (∃ msg, find env (PS.pattern p) r = Except.error (Err.findError msg) ∧
       ∃ a, msg = a ++ p.filename) ∧
    (∃ msg, find_all env p r = Except.error (Err.findError msg) ∧
       ∃ a, msg = a ++ p.filename) := by
  constructor
  · exact ⟨"Unable to find image " ++ p.filename,
      by simp [find, h1, Pattern.get_filename],
      "Unable to find image ", rfl⟩
  · exact ⟨"Unable to find image " ++ p.filename,
      by simp [find_all, h2, Pattern.get_filename],
      "Unable to find image ", rfl⟩

/-- Witness for C1: a concrete environment with no matches. -/
theorem find_and_find_all_raise_on_zero_matches_witness :
    envEmpty.match_template pat0 none MatchTemplateType.SINGLE = [] ∧
    envEmpty.match_template pat0 none MatchTemplateType.MULTIPLE = [] ∧
    ((∃ msg, find envEmpty (PS.pattern pat0) none =
        Except.error (Err.findError msg) ∧ ∃ a, msg = a ++ pat0.filename) ∧
     (∃ msg, find_all envEmpty pat0 none =
        Except.error (Err.findError msg) ∧ ∃ a, msg = a ++ pat0.filename)) :=
  ⟨rfl, rfl, find_and_find_all_raise_on_zero_matches envEmpty pat0 none rfl rfl⟩

/-- Claim C2: exists returns false exactly when verify raises FindError,
returns true exactly when verify returns normally, and propagates every
other error (ValueError, TypeError) unchanged. -/
theorem exists_matches_verify (env : Env) (ps : PS) (t : Option Rat)
    (r : Option Rectangle) :
    (exists_ env ps t r = Except.ok false ↔
       ∃ msg, verify env ps t r = Except.error (Err.findError msg)) ∧
    (exists_ env ps t r = Except.ok true ↔
       ∃ b, verify env ps t r = Except.ok b) ∧
    (∀ msg, verify env ps t r = Except.error (Err.valueError msg) →
       exists_ env ps t r = Except.error (Err.valueError msg)) ∧
    (∀ msg, verify env ps t r = Except.error (Err.typeError msg) →
       exists_ env ps t r = Except.error (Err.typeError msg)) := by
  have hunfold : exists_ env ps t r =
      match verify env ps t r with
      | Except.ok _ => Except.ok true
      | Except.error (Err.findError _) => Except.ok false
      | Except.error e => Except.error e := by
    rw [exists_, verify_default_timeout]
  rcases hv : verify env ps t r with e | b
  · rcases e with msg | msg | msg
    · rw [hv] at hunfold
      refine ⟨?_, ?_, ?_, ?_⟩
      · simp [hunfold]
      · simp [hunfold]
      · intro m hm; simp at hm
      · intro m hm; simp at hm
    · rw [hv] at hunfold
      refine ⟨?_, ?_, ?_, ?_⟩
      · simp [hunfold]
      · simp [hunfold]
      · intro m hm
        simp only [Except.error.injEq, Err.valueError.injEq] at hm
        subst hm
        exact hunfold
      · intro m hm; simp at hm
    · rw [hv] at hunfold
      refine ⟨?_, ?_, ?_, ?_⟩
      · simp [hunfold]
      · simp [hunfold]
      · intro m hm; simp at hm
      · intro m hm
        simp only [Except.error.injEq, Err.typeError.injEq] at hm
        subst hm
        exact hunfold
  · rw [hv] at hunfold
    refine ⟨?_, ?_, ?_, ?_⟩
    · simp [hunfold]
    · simp [hunfold]
    · intro m hm; simp at hm
    · intro m hm; simp at hm

/-- Witness for C2: the invalid-argument error of verify propagates through
exists unchanged on a concrete environment. -/
theorem exists_matches_verify_witness :
    verify envEmpty PS.other none none =
      Except.error (Err.valueError "Invalid input") ∧
    exists_ envEmpty PS.other none none =
      Except.error (Err.valueError "Invalid input") :=
  ⟨rfl, (exists_matches_verify envEmpty PS.other none none).2.2.1
    "Invalid input" rfl⟩

/-- Claim C3: on an unchanged screen, where the SINGLE and MULTIPLE template
matches return the same ordered sequence, find returns exactly the first
element of the sequence find_all returns. -/
theorem find_returns_head_of_find_all (env : Env) (p : Pattern)
    (r : Option Rectangle)
    (hord : env.match_template p r MatchTemplateType.SINGLE =
            env.match_template p r MatchTemplateType.MULTIPLE)
    (l : Location) (ls : List Location)
    (hall : find_all env p r = Except.ok (l :: ls)) :
    find env (PS.pattern p) r = Except.ok (some l) := by
  have hm := find_all_ok_inv env p r (l :: ls) hall
  exact find_ok_of_single env p r l ls (hord.trans hm)

/-- Witness for C3: a concrete environment with one match. -/
theorem find_returns_head_of_find_all_witness :
    envHit.match_template pat0 none MatchTemplateType.SINGLE =
      envHit.match_template pat0 none MatchTemplateType.MULTIPLE ∧
    find_all envHit pat0 none = Except.ok [loc0] ∧
    find envHit (PS.pattern pat0) none = Except.ok (some loc0) :=
  ⟨rfl, rfl, find_returns_head_of_find_all envHit pat0 none rfl loc0 [] rfl⟩

/-- Claim C4: verify on a target that is neither a Pattern nor a string
raises ValueError and never raises FindError, for every timeout and region. -/
theorem verify_invalid_input (env : Env) (t : Option Rat)
    (r : Option Rectangle) :
    verify env PS.other t r = Except.error (Err.valueError "Invalid input") ∧
    ∀ msg, verify env PS.other t r ≠ Except.error (Err.findError msg) := by
  refine ⟨rfl, fun msg h => ?_⟩
  simp [verify] at h

/-- Claim C5: wait_vanish returns true exactly when the underlying vanish
poll (run with the effective timeout) reports success, and when the poll
reports nothing it raises FindError whose message contains the pattern
filename. -/
theorem wait_vanish_spec (env : Env) (p : Pattern) (t : Option Rat)
    (r : Option Rectangle) :
    (wait_vanish env p t r = Except.ok true ↔
       (env.image_vanish p (t.getD env.settings.auto_wait_timeout) r).isSome) ∧
    (env.image_vanish p (t.getD env.settings.auto_wait_timeout) r = none →
       ∃ msg, wait_vanish env p t r = Except.error (Err.findError msg) ∧
         ∃ suf, msg = p.filename ++ suf) := by
  constructor
  · rcases hv : env.image_vanish p (t.getD env.settings.auto_wait_timeout) r with
      _ | u
    · simp [wait_vanish, hv]
    · simp [wait_vanish, hv]
  · intro hv
    exact ⟨p.filename ++ " did not vanish",
      by simp [wait_vanish, hv, Pattern.get_filename],
      " did not vanish", rfl⟩

/-- Witness for C5: a concrete environment where the pattern never vanishes. -/
theorem wait_vanish_spec_witness :
    envEmpty.image_vanish pat0
      ((none : Option Rat).getD envEmpty.settings.auto_wait_timeout) none =
      none ∧
    (∃ msg, wait_vanish envEmpty pat0 none none =
       Except.error (Err.findError msg) ∧ ∃ suf, msg = pat0.filename ++ suf) :=
  ⟨rfl, (wait_vanish_spec envEmpty pat0 none none).2 rfl⟩

/-- Claim C6: when the timeout is omitted, verify on a Pattern, exists and
wait_vanish behave exactly as if the process-wide default wait timeout had
been passed. -/
theorem default_timeout_applied (env : Env) (p : Pattern) (ps : PS)
    (r : Option Rectangle) :
    verify env (PS.pattern p) none r =
      verify env (PS.pattern p) (some env.settings.auto_wait_timeout) r ∧
    exists_ env ps none r =
      exists_ env ps (some env.settings.auto_wait_timeout) r ∧
    wait_vanish env p none r =
      wait_vanish env p (some env.settings.auto_wait_timeout) r :=
  ⟨rfl, rfl, rfl⟩

/-- Claim C7: highlight with color omitted behaves as with the process-wide
default highlight color, and with seconds omitted as with the process-wide
default highlight duration. -/
theorem highlight_defaults (env : Env) (region : Option Rectangle)
    (s : Option Rat) (c : Option String) (pattern : Option Pattern)
    (location : Option (List Location)) :
    highlight env region s none pattern location =
      highlight env region s (some env.settings.highlight_color) pattern
        location ∧
    highlight env region none c pattern location =
      highlight env region (some env.settings.highlight_duration) c pattern
        location :=
  ⟨rfl, rfl⟩

/-- Claim C8: on every valid input (a well-formed region if one is given, a
non-negative duration if one is given, and a sequence of Locations whenever a
Pattern is given) highlight completes without raising an error. -/
theorem highlight_no_error_on_valid (env : Env) (region : Option Rectangle)
    (s : Option Rat) (c : Option String) (pat : Option Pattern)
    (location : Option (List Location))
    (hreg : optionAll Rectangle.wellFormed region)
    (hsec : optionAll (fun q => 0 ≤ q) s)
    (hval : pat = none ∨ location.isSome = true) :
    ∃ eff, highlight env region s c pat location = Except.ok eff := by
  rcases hval with hp | hl
  · subst hp
    exact highlight_none_pattern_isOk env region s c location
  · rcases Option.isSome_iff_exists.mp hl with ⟨locs, hlocs⟩
    subst hlocs
    exact highlight_some_isOk env region s c pat locs

/-- Witness for C8: a concrete well-formed region, duration, pattern and
location list. -/
theorem highlight_no_error_on_valid_witness :
    optionAll Rectangle.wellFormed (some rect0) ∧
    optionAll (fun q => (0 : Rat) ≤ q) (some 2) ∧
    ((some pat0 : Option Pattern) = none ∨
      (some [loc0] : Option (List Location)).isSome = true) ∧
    ∃ eff, highlight envEmpty (some rect0) (some 2) none (some pat0)
      (some [loc0]) = Except.ok eff :=
  ⟨⟨by norm_num [rect0], by norm_num [rect0]⟩, by norm_num [optionAll],
    Or.inr rfl,
    highlight_no_error_on_valid envEmpty (some rect0) (some 2) none
      (some pat0) (some [loc0])
      ⟨by norm_num [rect0], by norm_num [rect0]⟩ (by norm_num [optionAll])
      (Or.inr rfl)⟩

/-- Claim C9: find on a string target returns None without raising: the text
branch is unimplemented and the function falls through the Pattern check. -/
theorem find_text_returns_none (env : Env) (s : String)
    (r : Option Rectangle) :
    find env (PS.text s) r = Except.ok none :=
  rfl

/-- Claim C10: verify on a string target never reads the timeout argument:
any two timeout values produce identical behavior. -/
theorem verify_text_ignores_timeout (env : Env) (s : String)
    (r : Option Rectangle) (t1 t2 : Option Rat) :
    verify env (PS.text s) t1 r = verify env (PS.text s) t2 r :=
  rfl

end Finder
